import Mathlib

/-!
Verification of the query-orchestration pipeline of the Agentic-RAG-Assistant
repository (src/nodes.py, src/graph.py, src/main.py) against its
natural-language specification.

The pipeline is embedded shallowly:
* every external collaborator (language-model client, weather HTTP fetch,
  vector-store retriever, Cohere reranker, Python json.loads) is an oracle
  field of the `Oracles` record, returning `Except String _` — the `.error`
  case models a Python exception raised by that call;
* each LangGraph node of src/nodes.py becomes a Lean function on `GraphState`
  (LangGraph merges the dict a node returns into the state; the embedding
  returns the merged state directly);
* Python strings are Lean `String`s; `str.strip`, `str.lower`, `str.replace`
  and `str.startswith` are re-implemented below on the character list so that
  all definitions evaluate inside the kernel.  `strip`/`lower` are modelled on
  the ASCII range (the classifier tokens, fences and labels involved are all
  ASCII);
* float relevance scores are modelled as rationals: the pipeline never
  computes with them, it only stores and forwards them verbatim;
* numeric fields of the weather JSON are modelled by the decimal strings that
  Python's f-string interpolation renders them to, since the pipeline only
  ever interpolates them verbatim into the context template.
-/

deriving instance DecidableEq for Except

/-- Python `str.isspace` for the ASCII whitespace characters that
`str.strip()` removes. -/
def pyIsSpace (c : Char) : Bool :=
  c = ' ' || c = '\t' || c = '\n' || c = '\r' || c = '\x0b' || c = '\x0c'

/-- Python `str.strip()` (no argument): drop whitespace from both ends. -/
def pyStrip (s : String) : String :=
  String.mk (((s.data.dropWhile pyIsSpace).reverse.dropWhile pyIsSpace).reverse)

/-- Python `str.lower()` (ASCII range). -/
def pyLower (s : String) : String :=
  String.mk (s.data.map Char.toLower)

/-- Python `str.startswith(pre)`. -/
def pyStartsWith (s pre : String) : Bool :=
  pre.data.isPrefixOf s.data

/-- One step of Python `str.replace`: scan left to right, replacing every
non-overlapping occurrence of `pat` by `repl`.  Structural recursion on a
fuel argument so that the kernel can evaluate it; the fuel is set to the
length of the scanned list, which suffices because every step consumes at
least one character (the patterns replaced by the code are non-empty). -/
def replaceFuel (pat repl : List Char) : Nat → List Char → List Char
  | 0, s => s
  | _, [] => []
  | fuel + 1, c :: rest =>
    if pat ≠ [] ∧ pat.isPrefixOf (c :: rest) then
      repl ++ replaceFuel pat repl fuel (rest.drop (pat.length - 1))
    else
      c :: replaceFuel pat repl fuel rest

/-- Python `s.replace(pat, repl)` for non-empty `pat`. -/
def pyReplace (s pat repl : String) : String :=
  String.mk (replaceFuel pat.data repl.data s.data.length s.data)

/-- The structured weather facts the code reads out of the OpenWeatherMap
JSON response (src/nodes.py lines 87-94): `name`, `sys.country`, `main.temp`,
`main.feels_like`, `main.humidity`, `weather[0].description`, `wind.speed`.
Numeric values are carried as their rendered decimal strings (see module
header). -/
structure WeatherData where
  name : String
  country : String
  temp : String
  feels_like : String
  humidity : String
  description : String
  wind_speed : String
deriving DecidableEq, Repr

/-- The value stored in the `evaluation` field of the state: either a parsed
JSON object (the rubric shape is a flat object with integer scores, so the
parsed value is modelled as a string-to-integer association list — `.obj []`
is the initial empty dict `{}`), or the error descriptor
`{"error": str(e)}` built by the except branch of `evaluation_node`. -/
inductive EvalValue where
  | obj (kvs : List (String × Int))
  | errObj (msg : String)
deriving DecidableEq, Repr

/-- The LangGraph state dict (class `GraphState` of src/nodes.py).
`weather_data` is `none` for the empty dict `{}` and `some w` for a full
fetch response.  Note the code annotates `route` with
`Literal["weather", "pdf"]`, but at runtime it is an arbitrary string. -/
structure GraphState where
  question : String
  route : String
  context : String
  weather_data : Option WeatherData
  retrieved_docs : List String
  rerank_scores : List ℚ
  generation : String
  evaluation : EvalValue
deriving DecidableEq, Repr

/-- One entry of the Cohere rerank response: `result.document.text` and
`result.relevance_score`. -/
structure RerankResult where
  text : String
  score : ℚ
deriving DecidableEq, Repr

/-- `RETRIEVAL_TOP_K = 10` (src/config.py). -/
def RETRIEVAL_TOP_K : Nat := 10

/-- `RERANK_TOP_N = 3` (src/config.py). -/
def RERANK_TOP_N : Nat := 3

/-- The external collaborators consumed by the pipeline, one field per call
site; `.error e` models that call raising a Python exception whose `str` is
`e`.  Prompt texts are part of the oracle, so each oracle takes exactly the
data the code feeds into the corresponding chain or client call. -/
structure Oracles where
  /-- Router chain (src/nodes.py line 54): LLM classification of the question. -/
  routerLLM : String → Except String String
  /-- City-extraction chain inside `weather_node` (line 71). -/
  extractCityLLM : String → Except String String
  /-- `requests.get` + `raise_for_status` + `.json()` on city (lines 83-85). -/
  fetch : String → Except String WeatherData
  /-- Vector-store retriever on (question, k) (lines 114-119). -/
  retrieve : String → Nat → Except String (List String)
  /-- Cohere rerank on (question, documents, top_n) (lines 130-136). -/
  rerank : String → List String → Nat → Except String (List RerankResult)
  /-- Generation chain (line 187) on (weather-template?, context, question);
  the Bool is whether the weather prompt template was selected. -/
  generateLLM : Bool → String → String → Except String String
  /-- Evaluation rubric chain (line 214) on (question, context, generation). -/
  evalLLM : String → String → String → Except String String
  /-- Python `json.loads`, restricted to the flat integer-valued-object
  values relevant to the rubric shape. -/
  jsonLoads : String → Except String (List (String × Int))

/-- The route label the router stores: `chain.invoke(...).strip().lower()`
(src/nodes.py line 54). -/
def normalizeRoute (raw : String) : String :=
  pyLower (pyStrip raw)

/-- `router_node` (src/nodes.py lines 40-57): classify and store the
normalized raw classifier output in `route`.  The chain call is not wrapped
in try/except, so its failure propagates. -/
def router_node (O : Oracles) (s : GraphState) : Except String GraphState :=
  match O.routerLLM s.question with
  | .error e => .error e
  | .ok raw => .ok { s with route := normalizeRoute raw }

/-- `route_question` (src/graph.py lines 12-18): the conditional edge after
the router. -/
def route_question (s : GraphState) : String :=
  if s.route = "weather" then "weather" else "pdf"

/-- The f-string context template of `weather_node` (src/nodes.py
lines 87-94), character for character (a triple-quoted f-string with
8-space indentation). -/
def weatherContext (w : WeatherData) : String :=
  "\n        " ++ ("Location: " ++ w.name ++ ", " ++ w.country) ++ "\n        " ++
  ("Temperature: " ++ w.temp ++ "°C") ++ "\n        " ++
  ("Feels Like: " ++ w.feels_like ++ "°C") ++ "\n        " ++
  ("Humidity: " ++ w.humidity ++ "%") ++ "\n        " ++
  ("Weather: " ++ w.description) ++ "\n        " ++
  ("Wind Speed: " ++ w.wind_speed ++ " m/s") ++ "\n        "

/-- `weather_node` (src/nodes.py lines 60-101).  The city-extraction chain
call (line 71) happens before the try block, so its failure propagates; the
fetch is inside the try, so any fetch failure degrades to empty
`weather_data` and an error context. -/
def weather_node (O : Oracles) (s : GraphState) : Except String GraphState :=
  match O.extractCityLLM s.question with
  | .error e => .error e
  | .ok rawCity =>
    let city := pyStrip rawCity
    .ok (match O.fetch city with
      | .ok w => { s with weather_data := some w, context := weatherContext w }
      | .error e =>
        { s with weather_data := none,
                 context := "Error fetching weather data: " ++ e })

/-- `rag_retrieval_node` (src/nodes.py lines 104-165).  The whole body is
inside one try/except, so the node never raises.  The second component of
the result instruments whether the `co.rerank` call was executed: the source
calls it unconditionally once coarse retrieval returned (even with zero
candidates). -/
def rag_retrieval_node (O : Oracles) (s : GraphState) : GraphState × Bool :=
  match O.retrieve s.question RETRIEVAL_TOP_K with
  | .error e =>
    ({ s with retrieved_docs := [],
              context := "Error retrieving documents: " ++ e,
              rerank_scores := [] }, false)
  | .ok initial_docs =>
    match O.rerank s.question initial_docs RERANK_TOP_N with
    | .error e =>
      ({ s with retrieved_docs := [],
                context := "Error retrieving documents: " ++ e,
                rerank_scores := [] }, true)
    | .ok results =>
      ({ s with retrieved_docs := results.map RerankResult.text,
                context := String.intercalate "\n\n" (results.map RerankResult.text),
                rerank_scores := results.map RerankResult.score }, true)

/-- `generation_node` (src/nodes.py lines 168-191): pick the weather or the
pdf prompt template by comparing `route` with `"weather"`, then invoke the
LLM once; the call is not wrapped in try/except, so its failure propagates. -/
def generation_node (O : Oracles) (s : GraphState) : Except String GraphState :=
  match O.generateLLM (s.route = "weather") s.context s.question with
  | .error e => .error e
  | .ok g => .ok { s with generation := g }

/-- The fence-cleaning step of `evaluation_node` (src/nodes.py
lines 223-227): strip, then remove code-fence markers; the first branch
handles the ` ```json ` fenced variant, the second the plain ` ``` ` fenced
variant, and otherwise the bare output is parsed as is. -/
def cleanEval (raw : String) : String :=
  let t := pyStrip raw
  if pyStartsWith t "```json" then pyReplace (pyReplace t "```json" "") "```" ""
  else if pyStartsWith t "```" then pyReplace t "```" ""
  else t

/-- The try block of `evaluation_node` (src/nodes.py lines 213-237) seen as
a function of the rubric-chain outcome: an LLM failure or a parse failure
lands in the except branch (the error descriptor), a parsed value is stored
as is. -/
def eval_outcome (O : Oracles) (llmResult : Except String String) : EvalValue :=
  match llmResult with
  | .error e => .errObj e
  | .ok raw =>
    match O.jsonLoads (cleanEval raw) with
    | .ok m => .obj m
    | .error e => .errObj e

/-- `evaluation_node` (src/nodes.py lines 194-237).  The try block wraps the
LLM call and the JSON parse, so every failure inside the stage (including
the LLM call itself) is swallowed into the error descriptor
`{"error": str(e)}`; the node only writes the `evaluation` field. -/
def evaluation_node (O : Oracles) (s : GraphState) : GraphState :=
  { s with evaluation :=
      eval_outcome O (O.evalLLM s.question s.context s.generation) }

/-- The initial state dict built by `process_query_async`
(src/main.py lines 138-148): every field at its default/empty value. -/
def initial_state (question : String) : GraphState :=
  { question := question
    route := ""
    context := ""
    weather_data := none
    retrieved_docs := []
    rerank_scores := []
    generation := ""
    evaluation := .obj [] }

/-- `graph_app.invoke` on the graph built by `build_graph` (src/graph.py):
START → router → (weather | rag_retrieval, selected by `route_question`)
→ generation → evaluation → END.  An uncaught exception in a node aborts
the run and propagates to the caller. -/
def graph_invoke (O : Oracles) (s0 : GraphState) : Except String GraphState :=
  match router_node O s0 with
  | .error e => .error e
  | .ok s1 =>
    let branched :=
      if route_question s1 = "weather" then weather_node O s1
      else .ok (rag_retrieval_node O s1).1
    match branched with
    | .error e => .error e
    | .ok s2 =>
      match generation_node O s2 with
      | .error e => .error e
      | .ok s3 => .ok (evaluation_node O s3)

/-- One pipeline run for one question, as `process_query_async`
(src/main.py lines 135-150) performs it. -/
def process_query (O : Oracles) (question : String) : Except String GraphState :=
  graph_invoke O (initial_state question)

/-! ### A concrete model of `json.loads`

`json.loads` is the Python standard library, external to the repository; the
oracle field `Oracles.jsonLoads` abstracts it.  For concrete end-to-end
evaluation the following executable model parses exactly the rubric shape the
spec demands (a flat JSON object with integer values, surrounded by
arbitrary whitespace) and rejects everything else with an error message. -/

/-- Opening brace character. -/
def lbrace : Char := Char.ofNat 123

/-- Closing brace character. -/
def rbrace : Char := Char.ofNat 125

/-- Skip JSON whitespace. -/
def skipWs (s : List Char) : List Char :=
  s.dropWhile pyIsSpace

/-- Parse a JSON string literal (no escape sequences — rubric keys need
none): returns the content and the rest of the input. -/
def parseStringLit : List Char → Option (String × List Char)
  | c :: rest =>
    if c = '\"' then
      let content := rest.takeWhile (fun d => d ≠ '\"')
      match rest.dropWhile (fun d => d ≠ '\"') with
      | d :: r => if d = '\"' then some (String.mk content, r) else none
      | [] => none
    else none
  | [] => none

/-- Parse an optionally signed decimal integer. -/
def parseIntLit (s : List Char) : Option (Int × List Char) :=
  let core (t : List Char) : Option (Nat × List Char) :=
    let ds := t.takeWhile Char.isDigit
    if ds = [] then none
    else some (ds.foldl (fun n d => 10 * n + (d.toNat - 48)) 0, t.dropWhile Char.isDigit)
  match s with
  | c :: rest =>
    if c = '-' then (core rest).map (fun p => (-(p.1 : Int), p.2))
    else (core s).map (fun p => ((p.1 : Int), p.2))
  | [] => none

/-- Parse a non-empty comma-separated list of `"key": int` pairs followed by
a closing brace.  Fuel-structural so the kernel evaluates it. -/
def parsePairs : Nat → List Char → Option (List (String × Int) × List Char)
  | 0, _ => none
  | fuel + 1, s =>
    match parseStringLit (skipWs s) with
    | none => none
    | some (key, r1) =>
      match skipWs r1 with
      | c :: r2 =>
        if c = ':' then
          match parseIntLit (skipWs r2) with
          | none => none
          | some (v, r3) =>
            match skipWs r3 with
            | d :: r4 =>
              if d = ',' then
                (parsePairs fuel r4).map (fun p => ((key, v) :: p.1, p.2))
              else if d = rbrace then some ([(key, v)], r4)
              else none
            | [] => none
        else none
      | [] => none

/-- Modelled from the spec: Python `json.loads` (standard library, not part
of src/), restricted to the strict-JSON rubric shape — "a strict JSON object
with exactly three integer fields" and its degenerate relatives; any other
input fails with a parse-error message, as `json.loads` raises
`JSONDecodeError`. -/
def json_loads_model (s : String) : Except String (List (String × Int)) :=
  match skipWs s.data with
  | c :: rest =>
    if c = lbrace then
      match skipWs rest with
      | d :: r2 =>
        if d = rbrace then
          if skipWs r2 = [] then .ok [] else .error "Extra data"
        else
          match parsePairs (rest.length + 1) rest with
          | some (kvs, r3) =>
            if skipWs r3 = [] then .ok kvs else .error "Extra data"
          | none => .error "Expecting value"
      | [] => .error "Expecting value"
    else .error "Expecting value"
  | [] => .error "Expecting value"

/-! ### The batch endpoint (src/main.py) -/

/-- The response shape of the `/batch-query` endpoint (class `QueryResponse`
of src/main.py lines 51-59); fields declared `Optional[...] = None` are
`Option`s, `none` being Python `None`. -/
structure QueryResponse where
  question : String
  answer : String
  route : String
  context : String
  weather_data : Option (Option WeatherData) := none
  retrieved_docs : Option (List String) := none
  rerank_scores : Option (List ℚ) := none
  evaluation : Option EvalValue := none
deriving DecidableEq, Repr

/-- The per-item collection step of `batch_query` (src/main.py
lines 304-322): an exception captured for an item becomes an isolated error
marker; a successful run is translated field by field. -/
def collect_result (question : String) : Except String GraphState → QueryResponse
  | .error e =>
    { question := question
      answer := "Error: " ++ e
      route := "error"
      context := "" }
  | .ok r =>
    { question := question
      answer := r.generation
      route := r.route
      context := r.context
      weather_data := some r.weather_data
      retrieved_docs := some r.retrieved_docs
      rerank_scores := some r.rerank_scores
      evaluation := some r.evaluation }

/-- `batch_query` (src/main.py lines 287-329): fan out one independent
pipeline run per question (`asyncio.gather` with `return_exceptions=True`
returns the per-task outcomes in task order, exceptions captured per item),
then zip the questions with the outcomes in order. -/
def batch_query (O : Oracles) (questions : List String) : List QueryResponse :=
  questions.map (fun q => collect_result q (process_query O q))

/-! ### Frame lemmas: the evaluation stage only writes `evaluation` -/

/-- `evaluation_node` leaves the generated answer untouched. -/
theorem eval_node_generation (O : Oracles) (s : GraphState) :
    (evaluation_node O s).generation = s.generation := rfl

/-- `evaluation_node` leaves the context untouched. -/
theorem eval_node_context (O : Oracles) (s : GraphState) :
    (evaluation_node O s).context = s.context := rfl

/-- `evaluation_node` leaves the weather facts untouched. -/
theorem eval_node_weather_data (O : Oracles) (s : GraphState) :
    (evaluation_node O s).weather_data = s.weather_data := rfl

/-! ### Concrete oracle instances used to evaluate the pipeline -/

/-- A benign set of collaborators: classifier answers `"pdf"`, the index is
empty, generation always answers, the rubric model emits prose. -/
def stubOracles : Oracles where
  routerLLM := fun _ => .ok "pdf"
  extractCityLLM := fun _ => .ok "Mumbai"
  fetch := fun _ => .error "404 Client Error: city not found"
  retrieve := fun _ _ => .ok []
  rerank := fun _ _ _ => .ok []
  generateLLM := fun _ _ _ => .ok "answer"
  evalLLM := fun _ _ _ => .ok "not json"
  jsonLoads := json_loads_model

/-- Collaborators whose classifier emits the unrecognized token `"banana"`. -/
def bananaOracles : Oracles :=
  { stubOracles with routerLLM := fun _ => .ok "banana" }

/-! ### C1 and C2: routing -/

/-- C1: branch selection is a fail-open function of the normalized (trimmed,
lowercased) classifier output: the router stores the normalization of the raw
output, and the conditional edge takes the weather branch exactly when that
normalization is the literal `"weather"`, the document branch for every other
raw output; no third branch exists. -/
theorem branch_selection_fail_open (O : Oracles) (s : GraphState) (raw : String)
    (h : O.routerLLM s.question = .ok raw) :
    ∃ s1, router_node O s = .ok s1 ∧
      (route_question s1 = "weather" ∨ route_question s1 = "pdf") ∧
      (normalizeRoute raw = "weather" ↔ route_question s1 = "weather") ∧
      (normalizeRoute raw ≠ "weather" ↔ route_question s1 = "pdf") := by
  refine ⟨{ s with route := normalizeRoute raw }, by simp [router_node, h], ?_, ?_, ?_⟩ <;>
    by_cases hw : normalizeRoute raw = "weather" <;>
      simp [route_question, hw]

/-- C1 witness: the classifier outputs `"banana"` (run on `bananaOracles`)
and `" Weather \n"`; the first run takes the document branch, the second the
weather branch. -/
theorem branch_selection_fail_open_witness :
    (∃ s1, router_node bananaOracles (initial_state "q") = .ok s1 ∧
      (route_question s1 = "weather" ∨ route_question s1 = "pdf") ∧
      (normalizeRoute "banana" = "weather" ↔ route_question s1 = "weather") ∧
      (normalizeRoute "banana" ≠ "weather" ↔ route_question s1 = "pdf")) ∧
    (∃ s1, router_node { stubOracles with routerLLM := fun _ => .ok " Weather \n" }
        (initial_state "q") = .ok s1 ∧
      (route_question s1 = "weather" ∨ route_question s1 = "pdf") ∧
      (normalizeRoute " Weather \n" = "weather" ↔ route_question s1 = "weather") ∧
      (normalizeRoute " Weather \n" ≠ "weather" ↔ route_question s1 = "pdf")) :=
  ⟨branch_selection_fail_open bananaOracles (initial_state "q") "banana" rfl,
   branch_selection_fail_open _ (initial_state "q") " Weather \n" rfl⟩

/-- C2: the claim (and the code's own `Literal["weather", "pdf"]` annotation
on `GraphState.route`) says the stored route is always one of the two labels,
but `router_node` stores the normalized raw classifier output unchanged: on
classifier output `"banana"` the state's route field is `"banana"`, an
unrecognized third value. -/
theorem router_stores_unrecognized_route :
    ∃ s1, router_node bananaOracles (initial_state "What is a banana?") = .ok s1 ∧
      s1.route = "banana" ∧ s1.route ≠ "weather" ∧ s1.route ≠ "pdf" :=
  ⟨{ initial_state "What is a banana?" with route := "banana" },
   by decide, rfl, by decide, by decide⟩

/-! ### C3 and C6: the document stage -/

/-- Collaborators where coarse retrieval finds nothing and the reranker —
like the real Cohere endpoint — rejects an empty document list. -/
def emptyIndexOracles : Oracles :=
  { stubOracles with
    retrieve := fun _ _ => .ok []
    rerank := fun _ docs _ =>
      if docs = [] then .error "invalid request: list of documents must not be empty"
      else .ok [] }

/-- C3 counterexample: with zero coarse candidates the source still executes
`co.rerank` (there is no empty guard before src/nodes.py line 130), and when
that call raises — as the real reranker does on an empty list — the context
is the error string, not the empty string the claim demands. -/
theorem empty_candidates_rerank_still_invoked :
    (rag_retrieval_node emptyIndexOracles (initial_state "q")).2 = true ∧
    (rag_retrieval_node emptyIndexOracles (initial_state "q")).1.retrieved_docs = [] ∧
    (rag_retrieval_node emptyIndexOracles (initial_state "q")).1.rerank_scores = [] ∧
    (rag_retrieval_node emptyIndexOracles (initial_state "q")).1.context ≠ "" := by
  refine ⟨rfl, rfl, rfl, ?_⟩
  decide

/-- C3 amended: on zero coarse candidates the reranker IS invoked (with the
empty candidate list); the stored passages and scores are empty either way,
and the context is the empty string only if that rerank call returns an empty
result list — if it raises, the context is the error-prefixed string and the
pipeline still falls through to Generation. -/
theorem empty_candidates_behavior (O : Oracles) (s : GraphState)
    (h : O.retrieve s.question RETRIEVAL_TOP_K = .ok []) :
    (rag_retrieval_node O s).2 = true ∧
    (O.rerank s.question [] RERANK_TOP_N = .ok [] →
      (rag_retrieval_node O s).1.retrieved_docs = [] ∧
      (rag_retrieval_node O s).1.rerank_scores = [] ∧
      (rag_retrieval_node O s).1.context = "") ∧
    (∀ e, O.rerank s.question [] RERANK_TOP_N = .error e →
      (rag_retrieval_node O s).1.retrieved_docs = [] ∧
      (rag_retrieval_node O s).1.rerank_scores = [] ∧
      (rag_retrieval_node O s).1.context = "Error retrieving documents: " ++ e) := by
  unfold rag_retrieval_node
  rw [h]
  refine ⟨?_, ?_, ?_⟩
  · cases hR : O.rerank s.question [] RERANK_TOP_N <;> simp [hR]
  · intro hR
    simp [hR, String.intercalate]
  · intro e hR
    simp [hR]

/-- C3 amended witness: concretely, on `emptyIndexOracles` the rerank call is
made and raises, leaving empty passages and scores and an error context. -/
theorem empty_candidates_behavior_witness :
    (rag_retrieval_node emptyIndexOracles (initial_state "q")).1.retrieved_docs = [] ∧
    (rag_retrieval_node emptyIndexOracles (initial_state "q")).1.rerank_scores = [] ∧
    (rag_retrieval_node emptyIndexOracles (initial_state "q")).1.context =
      "Error retrieving documents: " ++ "invalid request: list of documents must not be empty" :=
  (empty_candidates_behavior emptyIndexOracles (initial_state "q") rfl).2.2
    "invalid request: list of documents must not be empty" rfl

/-- Collaborators with ten coarse candidates and a well-behaved reranker
returning the top three with scores in the unit interval. -/
def tenDocsOracles : Oracles :=
  { stubOracles with
    retrieve := fun _ _ =>
      .ok ["d0", "d1", "d2", "d3", "d4", "d5", "d6", "d7", "d8", "d9"]
    rerank := fun _ _ _ =>
      .ok [⟨"d7", mkRat 95 100⟩, ⟨"d2", mkRat 87 100⟩, ⟨"d9", mkRat 62 100⟩] }

/-- C6: on a successful rerank the stage stores the reranked texts and their
scores exactly in the reranker's returned order (it is a plain map over the
result list — no secondary sort), so both lists have the same length, at most
`RERANK_TOP_N = 3` and with scores in `[0, 1]` whenever the reranker honours
its contract, and the context is the passage texts joined with the blank-line
separator in that same order. -/
theorem rerank_order_preserved (O : Oracles) (s : GraphState)
    (docs : List String) (results : List RerankResult)
    (hret : O.retrieve s.question RETRIEVAL_TOP_K = .ok docs)
    (hrr : O.rerank s.question docs RERANK_TOP_N = .ok results)
    (hlen : results.length ≤ RERANK_TOP_N)
    (hsc : ∀ r ∈ results, 0 ≤ r.score ∧ r.score ≤ 1) :
    (rag_retrieval_node O s).1.retrieved_docs = results.map RerankResult.text ∧
    (rag_retrieval_node O s).1.rerank_scores = results.map RerankResult.score ∧
    (rag_retrieval_node O s).1.retrieved_docs.length =
      (rag_retrieval_node O s).1.rerank_scores.length ∧
    (rag_retrieval_node O s).1.retrieved_docs.length ≤ RERANK_TOP_N ∧
    (∀ x ∈ (rag_retrieval_node O s).1.rerank_scores, 0 ≤ x ∧ x ≤ 1) ∧
    (rag_retrieval_node O s).1.context =
      String.intercalate "\n\n" (results.map RerankResult.text) := by
  have hnode : rag_retrieval_node O s =
      ({ s with retrieved_docs := results.map RerankResult.text
                context := String.intercalate "\n\n" (results.map RerankResult.text)
                rerank_scores := results.map RerankResult.score }, true) := by
    simp only [rag_retrieval_node, hret, hrr]
  rw [hnode]
  refine ⟨rfl, rfl, by simp, by simpa using hlen, ?_, rfl⟩
  intro x hx
  simp only [List.mem_map] at hx
  obtain ⟨r, hr, hxr⟩ := hx
  exact hxr ▸ hsc r hr

/-- C6 witness: ten candidates, three reranked results with scores 0.95,
0.87, 0.62 — the stage reproduces them in order with the joined context. -/
theorem rerank_order_preserved_witness :
    (rag_retrieval_node tenDocsOracles (initial_state "q")).1.retrieved_docs =
      ["d7", "d2", "d9"] ∧
    (rag_retrieval_node tenDocsOracles (initial_state "q")).1.rerank_scores =
      [mkRat 95 100, mkRat 87 100, mkRat 62 100] ∧
    (rag_retrieval_node tenDocsOracles (initial_state "q")).1.context =
      "d7\n\nd2\n\nd9" := by
  have h := rerank_order_preserved tenDocsOracles (initial_state "q")
    ["d0", "d1", "d2", "d3", "d4", "d5", "d6", "d7", "d8", "d9"]
    [⟨"d7", mkRat 95 100⟩, ⟨"d2", mkRat 87 100⟩, ⟨"d9", mkRat 62 100⟩]
    rfl rfl (by decide) (by decide)
  exact ⟨h.1, h.2.1, h.2.2.2.2.2.trans (by decide)⟩

/-! ### C4 and C5: the weather stage -/

/-- C4: on a well-formed fetch response the stage stores the full response as
the weather facts and renders the fixed context template, which contains all
six labeled fields with the response's values verbatim. -/
theorem weather_context_completeness (O : Oracles) (s : GraphState)
    (rawCity : String) (w : WeatherData)
    (hc : O.extractCityLLM s.question = .ok rawCity)
    (hf : O.fetch (pyStrip rawCity) = .ok w) :
    ∃ s2, weather_node O s = .ok s2 ∧
      s2.weather_data = some w ∧
      s2.context = weatherContext w ∧
      (∃ p q, s2.context = p ++ ("Location: " ++ w.name ++ ", " ++ w.country) ++ q) ∧
      (∃ p q, s2.context = p ++ ("Temperature: " ++ w.temp ++ "°C") ++ q) ∧
      (∃ p q, s2.context = p ++ ("Feels Like: " ++ w.feels_like ++ "°C") ++ q) ∧
      (∃ p q, s2.context = p ++ ("Humidity: " ++ w.humidity ++ "%") ++ q) ∧
      (∃ p q, s2.context = p ++ ("Weather: " ++ w.description) ++ q) ∧
      (∃ p q, s2.context = p ++ ("Wind Speed: " ++ w.wind_speed ++ " m/s") ++ q) := by
  refine ⟨{ s with weather_data := some w, context := weatherContext w },
    by simp [weather_node, hc, hf], rfl, rfl, ?_, ?_, ?_, ?_, ?_, ?_⟩
  · exact ⟨"\n        ",
      "\n        " ++ ("Temperature: " ++ w.temp ++ "°C") ++ "\n        " ++
      ("Feels Like: " ++ w.feels_like ++ "°C") ++ "\n        " ++
      ("Humidity: " ++ w.humidity ++ "%") ++ "\n        " ++
      ("Weather: " ++ w.description) ++ "\n        " ++
      ("Wind Speed: " ++ w.wind_speed ++ " m/s") ++ "\n        ",
      by apply String.ext; simp [weatherContext, String.data_append, List.append_assoc]⟩
  · exact ⟨"\n        " ++ ("Location: " ++ w.name ++ ", " ++ w.country) ++ "\n        ",
      "\n        " ++ ("Feels Like: " ++ w.feels_like ++ "°C") ++ "\n        " ++
      ("Humidity: " ++ w.humidity ++ "%") ++ "\n        " ++
      ("Weather: " ++ w.description) ++ "\n        " ++
      ("Wind Speed: " ++ w.wind_speed ++ " m/s") ++ "\n        ",
      by apply String.ext; simp [weatherContext, String.data_append, List.append_assoc]⟩
  · exact ⟨"\n        " ++ ("Location: " ++ w.name ++ ", " ++ w.country) ++ "\n        " ++
      ("Temperature: " ++ w.temp ++ "°C") ++ "\n        ",
      "\n        " ++ ("Humidity: " ++ w.humidity ++ "%") ++ "\n        " ++
      ("Weather: " ++ w.description) ++ "\n        " ++
      ("Wind Speed: " ++ w.wind_speed ++ " m/s") ++ "\n        ",
      by apply String.ext; simp [weatherContext, String.data_append, List.append_assoc]⟩
  · exact ⟨"\n        " ++ ("Location: " ++ w.name ++ ", " ++ w.country) ++ "\n        " ++
      ("Temperature: " ++ w.temp ++ "°C") ++ "\n        " ++
      ("Feels Like: " ++ w.feels_like ++ "°C") ++ "\n        ",
      "\n        " ++ ("Weather: " ++ w.description) ++ "\n        " ++
      ("Wind Speed: " ++ w.wind_speed ++ " m/s") ++ "\n        ",
      by apply String.ext; simp [weatherContext, String.data_append, List.append_assoc]⟩
  · exact ⟨"\n        " ++ ("Location: " ++ w.name ++ ", " ++ w.country) ++ "\n        " ++
      ("Temperature: " ++ w.temp ++ "°C") ++ "\n        " ++
      ("Feels Like: " ++ w.feels_like ++ "°C") ++ "\n        " ++
      ("Humidity: " ++ w.humidity ++ "%") ++ "\n        ",
      "\n        " ++ ("Wind Speed: " ++ w.wind_speed ++ " m/s") ++ "\n        ",
      by apply String.ext; simp [weatherContext, String.data_append, List.append_assoc]⟩
  · exact ⟨"\n        " ++ ("Location: " ++ w.name ++ ", " ++ w.country) ++ "\n        " ++
      ("Temperature: " ++ w.temp ++ "°C") ++ "\n        " ++
      ("Feels Like: " ++ w.feels_like ++ "°C") ++ "\n        " ++
      ("Humidity: " ++ w.humidity ++ "%") ++ "\n        " ++
      ("Weather: " ++ w.description) ++ "\n        ",
      "\n        ",
      by apply String.ext; simp [weatherContext, String.data_append, List.append_assoc]⟩

/-- A well-formed Mumbai fetch response used by the C4 witness. -/
def mumbaiWeather : WeatherData where
  name := "Mumbai"
  country := "IN"
  temp := "32"
  feels_like := "36.2"
  humidity := "70"
  description := "haze"
  wind_speed := "4.1"

/-- Collaborators whose fetch succeeds with the Mumbai response. -/
def mumbaiOracles : Oracles :=
  { stubOracles with
    routerLLM := fun _ => .ok "weather"
    fetch := fun _ => .ok mumbaiWeather }

/-- C4 witness: the Mumbai response instantiates the six labeled fields. -/
theorem weather_context_completeness_witness :
    ∃ s2, weather_node mumbaiOracles (initial_state "weather in Mumbai?") = .ok s2 ∧
      s2.weather_data = some mumbaiWeather ∧
      s2.context = weatherContext mumbaiWeather ∧
      (∃ p q, s2.context = p ++ ("Location: " ++ mumbaiWeather.name ++ ", " ++ mumbaiWeather.country) ++ q) ∧
      (∃ p q, s2.context = p ++ ("Temperature: " ++ mumbaiWeather.temp ++ "°C") ++ q) ∧
      (∃ p q, s2.context = p ++ ("Feels Like: " ++ mumbaiWeather.feels_like ++ "°C") ++ q) ∧
      (∃ p q, s2.context = p ++ ("Humidity: " ++ mumbaiWeather.humidity ++ "%") ++ q) ∧
      (∃ p q, s2.context = p ++ ("Weather: " ++ mumbaiWeather.description) ++ q) ∧
      (∃ p q, s2.context = p ++ ("Wind Speed: " ++ mumbaiWeather.wind_speed ++ " m/s") ++ q) :=
  weather_context_completeness mumbaiOracles (initial_state "weather in Mumbai?")
    "Mumbai" mumbaiWeather rfl rfl

/-- C5: on any fetch failure the weather stage does not raise — it stores
empty weather facts and the distinctly prefixed error context — and the run
still reaches the terminal state; the final answer is the generation output,
so it is non-empty whenever the generation client returns non-empty text. -/
theorem weather_degradation (O : Oracles) (q rawRoute rawCity e g : String)
    (hr : O.routerLLM q = .ok rawRoute)
    (hw : normalizeRoute rawRoute = "weather")
    (hc : O.extractCityLLM q = .ok rawCity)
    (hf : O.fetch (pyStrip rawCity) = .error e)
    (hg : O.generateLLM true ("Error fetching weather data: " ++ e) q = .ok g)
    (hgne : g ≠ "") :
    ∃ final, process_query O q = .ok final ∧
      final.weather_data = none ∧
      (∃ rest, final.context = "Error fetching weather data: " ++ rest) ∧
      final.generation = g ∧
      final.generation ≠ "" := by
  have hrun : process_query O q =
      .ok (evaluation_node O
        { question := q
          route := normalizeRoute rawRoute
          context := "Error fetching weather data: " ++ e
          weather_data := none
          retrieved_docs := []
          rerank_scores := []
          generation := g
          evaluation := .obj [] }) := by
    unfold process_query graph_invoke initial_state
    simp only [router_node, hr]
    simp only [route_question, hw]
    simp only [weather_node, generation_node, hc, hf, hw, hg]
    simp [hg]
  refine ⟨_, hrun, ?_, ⟨e, ?_⟩, ?_, ?_⟩
  · rw [eval_node_weather_data]
  · rw [eval_node_context]
  · rw [eval_node_generation]
  · rw [eval_node_generation]
    exact hgne

/-- Collaborators for the C5 witness: classification says weather, the fetch
times out, generation degrades gracefully. -/
def fetchDownOracles : Oracles :=
  { stubOracles with
    routerLLM := fun _ => .ok " Weather \n"
    extractCityLLM := fun _ => .ok " Atlantis "
    generateLLM := fun _ _ _ => .ok "Sorry, I could not fetch the weather."
    fetch := fun _ => .error "HTTPSConnectionPool: Read timed out" }

/-- C5 witness: a concrete timed-out fetch still yields a completed run with
empty weather facts, the error-prefixed context and a non-empty answer. -/
theorem weather_degradation_witness :
    ∃ final, process_query fetchDownOracles "weather in Atlantis?" = .ok final ∧
      final.weather_data = none ∧
      (∃ rest, final.context = "Error fetching weather data: " ++ rest) ∧
      final.generation = "Sorry, I could not fetch the weather." ∧
      final.generation ≠ "" :=
  weather_degradation fetchDownOracles "weather in Atlantis?" " Weather \n" " Atlantis "
    "HTTPSConnectionPool: Read timed out" "Sorry, I could not fetch the weather."
    rfl (by decide) rfl rfl rfl (by decide)

/-! ### Frame lemmas for the document stage and a completion helper -/

/-- `rag_retrieval_node` leaves the question untouched. -/
theorem rag_node_question (O : Oracles) (s : GraphState) :
    (rag_retrieval_node O s).1.question = s.question := by
  rcases hR : O.retrieve s.question RETRIEVAL_TOP_K with e | docs
  · simp [rag_retrieval_node, hR]
  · rcases hK : O.rerank s.question docs RERANK_TOP_N with e | results <;>
      simp [rag_retrieval_node, hR, hK]

/-- `rag_retrieval_node` leaves the route untouched. -/
theorem rag_node_route (O : Oracles) (s : GraphState) :
    (rag_retrieval_node O s).1.route = s.route := by
  rcases hR : O.retrieve s.question RETRIEVAL_TOP_K with e | docs
  · simp [rag_retrieval_node, hR]
  · rcases hK : O.rerank s.question docs RERANK_TOP_N with e | results <;>
      simp [rag_retrieval_node, hR, hK]

/-- If the three unguarded LLM call sites (router, city extraction,
generation) answer, the run reaches a terminal state, whatever the weather
fetch, the retrieval stack and the whole evaluation stage do. -/
theorem pipeline_completes (O : Oracles) (q rawr c : String)
    (hr : O.routerLLM q = .ok rawr)
    (hc : O.extractCityLLM q = .ok c)
    (hg : ∀ b ctx, ∃ g, O.generateLLM b ctx q = .ok g) :
    ∃ final, process_query O q = .ok final := by
  unfold process_query graph_invoke initial_state
  simp only [router_node, hr]
  by_cases hw : normalizeRoute rawr = "weather"
  · simp only [route_question, hw]
    simp only [weather_node, hc]
    rcases hF : O.fetch (pyStrip c) with e | w
    · obtain ⟨g, hgg⟩ := hg true ("Error fetching weather data: " ++ e)
      simp only [hF, generation_node, hw]
      simp [hgg]
    · obtain ⟨g, hgg⟩ := hg true (weatherContext w)
      simp only [hF, generation_node, hw]
      simp [hgg]
  · simp [route_question, hw]
    set s2 := (rag_retrieval_node O
      { question := q
        route := normalizeRoute rawr
        context := ""
        weather_data := none
        retrieved_docs := []
        rerank_scores := []
        generation := ""
        evaluation := EvalValue.obj [] }).1 with hs2
    have hq2 : s2.question = q := by rw [hs2, rag_node_question]
    obtain ⟨g, hgg⟩ := hg (decide (s2.route = "weather")) s2.context
    have hgen : generation_node O s2 = .ok { s2 with generation := g } := by
      unfold generation_node
      rw [hq2, hgg]
    rw [hgen]
    exact ⟨_, rfl⟩

/-! ### C7 and C10: the evaluation stage -/

/-- C7: the rubric output is parsed after stripping whitespace and code-fence
markers (both the ` ```json ` fenced and the bare variant parse to the same
three-score object); a successful parse is stored as the evaluation map, any
parse failure is swallowed into the error-descriptor object, and the pipeline
still completes whatever the evaluation stage does. -/
theorem evaluation_parse_robustness (O : Oracles) (s : GraphState) (raw : String)
    (h : O.evalLLM s.question s.context s.generation = .ok raw) :
    ((∀ m, O.jsonLoads (cleanEval raw) = .ok m →
        (evaluation_node O s).evaluation = .obj m) ∧
     (∀ e, O.jsonLoads (cleanEval raw) = .error e →
        (evaluation_node O s).evaluation = .errObj e)) ∧
    json_loads_model
        (cleanEval "```json\n\x7b\"relevance\":8,\"accuracy\":9,\"completeness\":7\x7d\n```") =
      .ok [("relevance", 8), ("accuracy", 9), ("completeness", 7)] ∧
    json_loads_model
        (cleanEval "```\n\x7b\"relevance\":8,\"accuracy\":9,\"completeness\":7\x7d\n```") =
      .ok [("relevance", 8), ("accuracy", 9), ("completeness", 7)] ∧
    json_loads_model
        (cleanEval "\x7b\"relevance\":8,\"accuracy\":9,\"completeness\":7\x7d") =
      .ok [("relevance", 8), ("accuracy", 9), ("completeness", 7)] ∧
    (∃ e2, json_loads_model (cleanEval "not json") = .error e2) ∧
    (∀ q rawr c, O.routerLLM q = .ok rawr → O.extractCityLLM q = .ok c →
      (∀ b ctx, ∃ g, O.generateLLM b ctx q = .ok g) →
      ∃ final, process_query O q = .ok final) := by
  refine ⟨⟨?_, ?_⟩, by decide, by decide, by decide, ⟨_, rfl⟩,
    fun q rawr c hr hc hg => pipeline_completes O q rawr c hr hc hg⟩
  · intro m hm
    simp [evaluation_node, eval_outcome, h, hm]
  · intro e he
    simp [evaluation_node, eval_outcome, h, he]

/-- C7 witness: the stub rubric model answers the prose `"not json"`, which
fails to parse and is swallowed, and the completion conjunct holds on the
stub collaborators. -/
theorem evaluation_parse_robustness_witness :
    ((∀ m, stubOracles.jsonLoads (cleanEval "not json") = .ok m →
        (evaluation_node stubOracles (initial_state "q")).evaluation = .obj m) ∧
     (∀ e, stubOracles.jsonLoads (cleanEval "not json") = .error e →
        (evaluation_node stubOracles (initial_state "q")).evaluation = .errObj e)) ∧
    json_loads_model
        (cleanEval "```json\n\x7b\"relevance\":8,\"accuracy\":9,\"completeness\":7\x7d\n```") =
      .ok [("relevance", 8), ("accuracy", 9), ("completeness", 7)] ∧
    json_loads_model
        (cleanEval "```\n\x7b\"relevance\":8,\"accuracy\":9,\"completeness\":7\x7d\n```") =
      .ok [("relevance", 8), ("accuracy", 9), ("completeness", 7)] ∧
    json_loads_model
        (cleanEval "\x7b\"relevance\":8,\"accuracy\":9,\"completeness\":7\x7d") =
      .ok [("relevance", 8), ("accuracy", 9), ("completeness", 7)] ∧
    (∃ e2, json_loads_model (cleanEval "not json") = .error e2) ∧
    (∀ q rawr c, stubOracles.routerLLM q = .ok rawr →
      stubOracles.extractCityLLM q = .ok c →
      (∀ b ctx, ∃ g, stubOracles.generateLLM b ctx q = .ok g) →
      ∃ final, process_query stubOracles q = .ok final) :=
  evaluation_parse_robustness stubOracles (initial_state "q") "not json" rfl

/-- Collaborators whose rubric chain itself raises. -/
def evalDownOracles : Oracles :=
  { stubOracles with evalLLM := fun _ _ _ => .error "quota exceeded" }

/-- C10: the evaluation stage swallows every exception raised inside it —
a failure of the rubric LLM call itself as well as a JSON parse failure —
into the single-field error descriptor, and the pipeline reaches the
terminal state for every question and every evaluation-stage fault. -/
theorem evaluation_stage_swallows (O : Oracles) (s : GraphState) :
    (∀ e, O.evalLLM s.question s.context s.generation = .error e →
      evaluation_node O s = { s with evaluation := .errObj e }) ∧
    (∀ raw pe, O.evalLLM s.question s.context s.generation = .ok raw →
      O.jsonLoads (cleanEval raw) = .error pe →
      evaluation_node O s = { s with evaluation := .errObj pe }) ∧
    (∀ q rawr c, O.routerLLM q = .ok rawr → O.extractCityLLM q = .ok c →
      (∀ b ctx, ∃ g, O.generateLLM b ctx q = .ok g) →
      ∃ final, process_query O q = .ok final) := by
  refine ⟨?_, ?_, fun q rawr c hr hc hg => pipeline_completes O q rawr c hr hc hg⟩
  · intro e he
    simp [evaluation_node, eval_outcome, he]
  · intro raw pe hok hpe
    simp [evaluation_node, eval_outcome, hok, hpe]

/-- C10 witness: a concrete rubric-chain outage is swallowed into the error
descriptor and the run on those collaborators still completes. -/
theorem evaluation_stage_swallows_witness :
    evaluation_node evalDownOracles (initial_state "q") =
      { initial_state "q" with evaluation := .errObj "quota exceeded" } ∧
    (∃ final, process_query evalDownOracles "q" = .ok final) :=
  ⟨(evaluation_stage_swallows evalDownOracles (initial_state "q")).1 "quota exceeded" rfl,
   (evaluation_stage_swallows evalDownOracles (initial_state "q")).2.2 "q" "pdf" "Mumbai"
     rfl rfl (fun _ _ => ⟨"answer", rfl⟩)⟩

/-! ### C8: which failures are hard errors -/

/-- Collaborators whose router succeeds and whose generation client always
answers, but whose city-extraction LLM call raises. -/
def cityDownOracles : Oracles :=
  { stubOracles with
    routerLLM := fun _ => .ok "weather"
    extractCityLLM := fun _ => .error "LLM transport error" }

/-- C8 counterexample: a run in which the Router chain succeeds and the
Generation chain would succeed on every input, yet the query fails hard —
the WeatherStage city-extraction LLM call (src/nodes.py line 71, outside the
try block) raised.  So Router/Generation failures are not the only hard
errors, contrary to the claim. -/
theorem non_router_generation_hard_error :
    cityDownOracles.routerLLM "weather in Pune?" = .ok "weather" ∧
    cityDownOracles.generateLLM true "any context" "weather in Pune?" = .ok "answer" ∧
    cityDownOracles.generateLLM false "any context" "weather in Pune?" = .ok "answer" ∧
    process_query cityDownOracles "weather in Pune?" = .error "LLM transport error" := by
  refine ⟨rfl, rfl, rfl, ?_⟩
  decide

/-- C8 amended: a language-model failure in the Router chain, the
WeatherStage city-extraction chain, or the Generation chain propagates to
the caller as a query-level failure, while fetch, retrieval/rerank and
evaluation faults are swallowed: whenever those three LLM call sites answer,
the run completes regardless of every other collaborator. -/
theorem llm_failure_propagation (O : Oracles) (q : String) :
    (∀ e, O.routerLLM q = .error e → process_query O q = .error e) ∧
    (∀ rawr e, O.routerLLM q = .ok rawr → normalizeRoute rawr = "weather" →
      O.extractCityLLM q = .error e → process_query O q = .error e) ∧
    (∀ rawr c e, O.routerLLM q = .ok rawr → normalizeRoute rawr = "weather" →
      O.extractCityLLM q = .ok c → (∀ b ctx, O.generateLLM b ctx q = .error e) →
      process_query O q = .error e) ∧
    (∀ rawr e, O.routerLLM q = .ok rawr → normalizeRoute rawr ≠ "weather" →
      (∀ b ctx, O.generateLLM b ctx q = .error e) → process_query O q = .error e) ∧
    (∀ rawr c, O.routerLLM q = .ok rawr → O.extractCityLLM q = .ok c →
      (∀ b ctx, ∃ g, O.generateLLM b ctx q = .ok g) →
      ∃ final, process_query O q = .ok final) := by
  refine ⟨?_, ?_, ?_, ?_, fun rawr c hr hc hg => pipeline_completes O q rawr c hr hc hg⟩
  · intro e h
    unfold process_query graph_invoke initial_state
    simp [router_node, h]
  · intro rawr e hr hwx hce
    unfold process_query graph_invoke initial_state
    simp only [router_node, hr]
    simp only [route_question, hwx]
    simp [weather_node, hce]
  · intro rawr c e hr hwx hc hge
    unfold process_query graph_invoke initial_state
    simp only [router_node, hr]
    simp only [route_question, hwx]
    simp only [weather_node, hc]
    rcases hF : O.fetch (pyStrip c) with e2 | w <;>
      · simp only [hF, generation_node, hwx]
        simp [hge]
  · intro rawr e hr hwx hge
    unfold process_query graph_invoke initial_state
    simp only [router_node, hr]
    simp [route_question, hwx]
    set s2 := (rag_retrieval_node O
      { question := q
        route := normalizeRoute rawr
        context := ""
        weather_data := none
        retrieved_docs := []
        rerank_scores := []
        generation := ""
        evaluation := EvalValue.obj [] }).1 with hs2
    have hq2 : s2.question = q := by rw [hs2, rag_node_question]
    have hgen : generation_node O s2 = .error e := by
      unfold generation_node
      rw [hq2, hge]
    rw [hgen]

/-- C8 amended witness: a concrete router outage fails the query with that
error, and on the benign stub collaborators the query completes. -/
theorem llm_failure_propagation_witness :
    process_query { stubOracles with routerLLM := fun _ => .error "rate limited" } "hi" =
      .error "rate limited" ∧
    (∃ final, process_query stubOracles "hi" = .ok final) :=
  ⟨(llm_failure_propagation { stubOracles with routerLLM := fun _ => .error "rate limited" } "hi").1
      "rate limited" rfl,
   (llm_failure_propagation stubOracles "hi").2.2.2.2 "pdf" "Mumbai" rfl rfl
     (fun _ _ => ⟨"answer", rfl⟩)⟩

/-! ### C9: batch isolation -/

/-- C9: the batch surface returns exactly one response per question, in input
order; each response is a function of that question's own run only, and a
run that raised becomes an isolated error marker rather than failing the
whole batch (the collection function is total). -/
theorem batch_isolation (O : Oracles) (questions : List String) :
    (batch_query O questions).length = questions.length ∧
    (∀ i (hi : i < questions.length) (hb : i < (batch_query O questions).length),
      (batch_query O questions).get ⟨i, hb⟩ =
        collect_result (questions.get ⟨i, hi⟩) (process_query O (questions.get ⟨i, hi⟩))) ∧
    (∀ q e, process_query O q = .error e →
      collect_result q (process_query O q) =
        { question := q, answer := "Error: " ++ e, route := "error", context := "" }) := by
  refine ⟨by simp [batch_query], ?_, ?_⟩
  · intro i hi hb
    simp [batch_query]
  · intro q e h
    rw [h]
    rfl

/-- Collaborators whose router raises exactly for the second question. -/
def flakyRouterOracles : Oracles :=
  { stubOracles with
    routerLLM := fun q => if q = "q2" then .error "router down" else .ok "pdf" }

/-- C9 witness: three questions on a router that raises only for the second;
the batch has three results, the second is the isolated error marker, and
item 1 is its own question's result. -/
theorem batch_isolation_witness :
    (batch_query flakyRouterOracles ["q1", "q2", "q3"]).length =
      (["q1", "q2", "q3"] : List String).length ∧
    (batch_query flakyRouterOracles ["q1", "q2", "q3"]).get ⟨1, by decide⟩ =
      collect_result ((["q1", "q2", "q3"] : List String).get ⟨1, by decide⟩)
        (process_query flakyRouterOracles ((["q1", "q2", "q3"] : List String).get ⟨1, by decide⟩)) ∧
    collect_result "q2" (process_query flakyRouterOracles "q2") =
      { question := "q2", answer := "Error: " ++ "router down", route := "error", context := "" } :=
  ⟨(batch_isolation flakyRouterOracles ["q1", "q2", "q3"]).1,
   (batch_isolation flakyRouterOracles ["q1", "q2", "q3"]).2.1 1 (by decide) (by decide),
   (batch_isolation flakyRouterOracles ["q1", "q2", "q3"]).2.2 "q2" "router down" (by decide)⟩
